import Mathlib

/-!
Verification of the residents-scheduler core (`cp_sat.py`, `app.py`) against its
natural-language specification.  The constraint model built by
`cp_sat_generate_schedule` is embedded shallowly: the model-construction phase
becomes `cpSatBuild`, the satisfaction of the posted constraints by a candidate
assignment (day variables plus the reified boolean indicators) becomes
`SatisfiesModel`, and the post-solve status dispatch becomes `surfaceResult`.
The Schedule Validator of spec section 4.4 has no implementation in the sources,
so its invariant checks are modelled from the wording of the spec (marked below).
-/

/-- The weekday name table of `cp_sat.py` line 17
(`days = ["Monday",...,"Sunday"]`). -/
def weekdayNames : List String :=
  ["Monday", "Tuesday", "Wednesday", "Thursday", "Friday", "Saturday", "Sunday"]

/-- The literal weekday name used by the concrete scenarios. -/
def fridayName : String := "Friday"

/-- The literal weekday name used by the concrete scenarios. -/
def mondayName : String := "Monday"

/-- The literal weekday name used by the concrete scenarios. -/
def sundayName : String := "Sunday"

/-- `days.index(start_day)` of line 18: Python `list.index` raises `ValueError`
when the name is absent, hence `Option`. -/
def weekdayIndex (s : String) : Option Nat :=
  weekdayNames.findIdx? (fun t => t == s)

/-- `days.index("Friday")` as used on line 21 (evaluates to 4). -/
def fridayIdx : Nat := weekdayNames.findIdx (fun t => t == fridayName)

/-- Lines 20-22: the Friday indices of the Friday-Saturday weekend blocks:
`[d for d in range(m) if (start_idx + d) % 7 == days.index("Friday") and d + 1 < m]`. -/
def weekendFridaysList (startIdx m : Nat) : List Nat :=
  (List.range m).filter (fun d => (startIdx + d) % 7 == fridayIdx && decide (d + 1 < m))

/-- Line 49: the window starts of the no-long-run constraint, `range(m-3)`.
Python `range` of a non-positive argument is empty, matching `Nat` subtraction. -/
def longRunWindows (m : Nat) : List Nat := List.range (m - 3)

/-- The Python exception kinds that `cp_sat_generate_schedule` can actually
raise: `ValueError` from `days.index` (line 18), `IndexError` from
`day_vars[d]` (line 66), `ZeroDivisionError` from `m // n` with `n = 0`
(line 69), and the single `RuntimeError("No valid schedule found.")`
(line 102).  There is no `InvalidParameters` variant in the code. -/
inductive ScheduleError where
  | valueError : ScheduleError
  | indexError : ScheduleError
  | zeroDivisionError : ScheduleError
  | runtimeError : ScheduleError
deriving DecidableEq

/-- The data determining the constraint model built by lines 16-91: the
parameters together with the derived weekend-Friday list and the normalized
disallowed constraints `(day-variable index, forbidden doctor value)`. -/
structure BuiltModel where
  n : Nat
  m : Nat
  startIdx : Nat
  weekendFridays : List Nat
  disallowed : List (Nat × Int)
deriving DecidableEq

/-- Python list-indexing semantics of `day_vars[d]` on line 66: an index in
`[0, m)` is used directly, an index in `[-m, 0)` counts from the end, and
anything else raises `IndexError` (`none`). -/
def normDayIndex (m : Nat) (d : Int) : Option Nat :=
  if 0 ≤ d ∧ d < (m : Int) then some d.toNat
  else if -(m : Int) ≤ d ∧ d < 0 then some ((m : Int) + d).toNat
  else none

/-- Lines 64-66: the loop posting `day_vars[d] != i` for each disallowed pair
`(i, d)`, with Python indexing of `day_vars`; the result is the list of
`(day-variable index, forbidden doctor)` constraints in order. -/
def buildDisallowed (m : Nat) (pairs : List (Int × Int)) :
    Except ScheduleError (List (Nat × Int)) :=
  match pairs with
  | [] => Except.ok []
  | p :: rest =>
    match normDayIndex m p.2 with
    | none => Except.error ScheduleError.indexError
    | some j =>
      match buildDisallowed m rest with
      | Except.error e => Except.error e
      | Except.ok l => Except.ok ((j, p.1) :: l)

/-- The model-construction phase of `cp_sat_generate_schedule` (lines 16-91),
with the error points in source order: the weekday lookup of line 18
(`ValueError`), the disallowed-pair indexing of line 66 (`IndexError`), and
the fairness-bound division `m // n` of line 69 (`ZeroDivisionError` when
`n = 0`).  No other line of the construction can raise; in particular there is
no validation of `n`, `m`, or the doctor components of the pairs. -/
def cpSatBuild (n m : Nat) (startDay : String) (pairs : List (Int × Int)) :
    Except ScheduleError BuiltModel :=
  match weekdayIndex startDay with
  | none => Except.error ScheduleError.valueError
  | some startIdx =>
    match buildDisallowed m pairs with
    | Except.error e => Except.error e
    | Except.ok ds =>
      if n = 0 then Except.error ScheduleError.zeroDivisionError
      else Except.ok ⟨n, m, startIdx, weekendFridaysList startIdx m, ds⟩

/-- The CP-SAT solver statuses relevant to lines 100-104. -/
inductive CpSolverStatus where
  | unknown : CpSolverStatus
  | modelInvalid : CpSolverStatus
  | feasible : CpSolverStatus
  | infeasible : CpSolverStatus
  | optimal : CpSolverStatus
deriving DecidableEq

/-- Lines 100-104: the post-solve dispatch.  Any status other than `OPTIMAL`
or `FEASIBLE` raises the one `RuntimeError("No valid schedule found.")`;
otherwise the day values are returned. -/
def surfaceResult (status : CpSolverStatus) (values : List Nat) :
    Except ScheduleError (List Nat) :=
  if status = CpSolverStatus.optimal ∨ status = CpSolverStatus.feasible then
    Except.ok values
  else Except.error ScheduleError.runtimeError

/-- `app.py` line 135: the conversion in the UI of per-doctor off-day selections to
the pair list handed to the core,
`[(int(day.split("/")[0]) - 1, doctor_index) for doctor_index, days in off_days.items() for day in days]`.
Each selection string starts with the 1-based day number, which is what
`int(day.split("/")[0])` extracts, so selections are modelled by those
numbers. -/
def uiDisallowedPairs (offDays : List (Nat × List Nat)) : List (Nat × Nat) :=
  offDays.flatMap (fun di => di.2.map (fun k => (k - 1, di.1)))

/-- The sum of the four boolean indicators `b[i,d+0..3]` of line 50. -/
def windowSum4 (bval : Nat → Nat → Bool) (i d : Nat) : Nat :=
  ((List.range 4).map (fun j => (bval i (d + j)).toNat)).sum

/-- Line 27: every day variable takes a value in the domain `[0, n - 1]` of
`model.NewIntVar(0, n-1, ...)` (empty for `n = 0`). -/
def domainOk (M : BuiltModel) (day : Nat → Nat) : Prop :=
  ∀ d < M.m, day d < M.n

/-- Lines 30-35: the channeling of the assignment indicators `b[i,d]`:
`day_vars[d] == i` enforced if `b[i,d]`, `day_vars[d] != i` if not. -/
def bLinkOk (M : BuiltModel) (day : Nat → Nat) (bval : Nat → Nat → Bool) : Prop :=
  ∀ i < M.n, ∀ d < M.m,
    (bval i d = true → day d = i) ∧ (bval i d = false → day d ≠ i)

/-- Lines 38-45: the channeling of the weekend indicators `w[i,k]`: if
`w[i,k]` then doctor i covers both days of block k; if not, the Friday of
block k is not doctor i (only the Friday is constrained on this side). -/
def wLinkOk (M : BuiltModel) (day : Nat → Nat) (wval : Nat → Nat → Bool) : Prop :=
  ∀ i < M.n, ∀ k < M.weekendFridays.length,
    (wval i k = true → day (M.weekendFridays.getD k 0) = i ∧
      day (M.weekendFridays.getD k 0 + 1) = i) ∧
    (wval i k = false → day (M.weekendFridays.getD k 0) ≠ i)

/-- Lines 47-50: in each 4-day window starting in `range(m-3)`, each doctor
covers at most 3 of the 4 days. -/
def noLongRunOk (M : BuiltModel) (bval : Nat → Nat → Bool) : Prop :=
  ∀ i < M.n, ∀ d ∈ longRunWindows M.m, windowSum4 bval i d ≤ 3

/-- Lines 52-54: the same doctor serves the Friday and Saturday of every
weekend block. -/
def pairingOk (M : BuiltModel) (day : Nat → Nat) : Prop :=
  ∀ fri ∈ M.weekendFridays, day fri = day (fri + 1)

/-- Lines 57-61: each `weekend_used[i]` equals the maximum (boolean or) of the
weekend indicators `w[i,k]` over all blocks. -/
def wuMaxOk (M : BuiltModel) (wval : Nat → Nat → Bool) (wu : Nat → Bool) : Prop :=
  ∀ i < M.n, wu i =
    ((List.range M.weekendFridays.length).map (fun k => wval i k)).foldr
      (fun a b => a || b) false

/-- Line 62: the number of weekend-used doctors equals `min(n, W)`. -/
def spreadOk (M : BuiltModel) (wu : Nat → Bool) : Prop :=
  ((List.range M.n).map (fun i => (wu i).toNat)).sum =
    min M.n M.weekendFridays.length

/-- Lines 64-66: every posted disallowed constraint `day_vars[j] != i` holds. -/
def disallowedOk (M : BuiltModel) (day : Nat → Nat) : Prop :=
  ∀ p ∈ M.disallowed, (day p.1 : Int) ≠ p.2

/-- Lines 68-76: the per-doctor total count lies in `[m // n, (m+n-1) // n]`. -/
def totalsOk (M : BuiltModel) (bval : Nat → Nat → Bool) : Prop :=
  ∀ i < M.n,
    M.m / M.n ≤ ((List.range M.m).map (fun d => (bval i d).toNat)).sum ∧
    ((List.range M.m).map (fun d => (bval i d).toNat)).sum ≤
      (M.m + M.n - 1) / M.n

/-- Lines 78-83: when `m ≥ 3n`, every doctor appears in every 3n-day window. -/
def coverageOk (M : BuiltModel) (bval : Nat → Nat → Bool) : Prop :=
  3 * M.n ≤ M.m → ∀ i < M.n, ∀ d < M.m - 3 * M.n + 1,
    1 ≤ ((List.range (3 * M.n)).map (fun j => (bval i (d + j)).toNat)).sum

/-- Lines 85-91: when `W > 0`, the per-doctor weekend count lies in
`[W // n, (W+n-1) // n]`. -/
def weekendFairOk (M : BuiltModel) (wval : Nat → Nat → Bool) : Prop :=
  0 < M.weekendFridays.length → ∀ i < M.n,
    M.weekendFridays.length / M.n ≤
      ((List.range M.weekendFridays.length).map (fun k => (wval i k).toNat)).sum ∧
    ((List.range M.weekendFridays.length).map (fun k => (wval i k).toNat)).sum ≤
      (M.weekendFridays.length + M.n - 1) / M.n

/-- A candidate valuation of all model variables (day variables `day`,
assignment indicators `bval` for `b[i,d]`, weekend indicators `wval` for
`w[i,k]`, and the `weekend_used` booleans `wu`) satisfies every constraint
posted by lines 27-91, clause by clause in source order. -/
def SatisfiesModel (M : BuiltModel) (day : Nat → Nat)
    (bval wval : Nat → Nat → Bool) (wu : Nat → Bool) : Prop :=
  domainOk M day ∧ bLinkOk M day bval ∧ wLinkOk M day wval ∧
  noLongRunOk M bval ∧ pairingOk M day ∧ wuMaxOk M wval wu ∧
  spreadOk M wu ∧ disallowedOk M day ∧ totalsOk M bval ∧
  coverageOk M bval ∧ weekendFairOk M wval

/-- The number of distinct doctors (indices below `n`) assigned to both days
of at least one weekend block, measured on the day-variable valuation that the
function returns. -/
def distinctWeekendDoctors (n : Nat) (fridays : List Nat) (day : Nat → Nat) : Nat :=
  ((List.range n).filter
    (fun i => fridays.any (fun fri => day fri == i && day (fri + 1) == i))).length

/-- The number of occurrences of doctor `i` in the `len`-day window of the
schedule starting at day `d`. -/
def countIn (sched : List Nat) (i d len : Nat) : Nat :=
  (((sched.drop d).take len).filter (fun x => x == i)).length

/-- Modelled from the spec: invariant 2 of section 3, for the Schedule
Validator of section 4.4, which has no implementation under src/ — "No doctor
is assigned on a day in their forbidden set"; pairs are `(doctor, day)`. -/
def specInv2 (pairs : List (Nat × Nat)) (sched : List Nat) : Prop :=
  ∀ p ∈ pairs, ¬ sched[p.2]? = some p.1

/-- Modelled from the spec: invariant 3 of section 3 in its window form — "in
every 4-day window, a doctor covers at most 3 of the 4 days"; the windows of an
`m`-day month start at `d < m - 3`. -/
def specInv3 (n m : Nat) (sched : List Nat) : Prop :=
  ∀ i < n, ∀ d < m - 3, countIn sched i d 4 ≤ 3

/-- Modelled from the spec: invariant 4 of section 3 — "For every WeekendBlock,
the same doctor covers both days". -/
def specInv4 (startIdx m : Nat) (sched : List Nat) : Prop :=
  ∀ fri ∈ weekendFridaysList startIdx m,
    ¬ sched[fri]? = none ∧ sched[fri]? = sched[fri + 1]?

/-- Modelled from the spec: invariant 5 of section 3 — "The number of distinct
doctors who cover at least one WeekendBlock equals min(n, W)". -/
def specInv5 (n startIdx m : Nat) (sched : List Nat) : Prop :=
  ((List.range n).filter
    (fun i => (weekendFridaysList startIdx m).any
      (fun fri => sched[fri]? == some i && sched[fri + 1]? == some i))).length =
  min n (weekendFridaysList startIdx m).length

/-- Modelled from the spec: invariant 6 of section 3 — "Per-doctor total
assigned-day count lies in [floor(m/n), ceil(m/n)]"; for `n ≥ 1` the ceiling is
`(m + n - 1) / n`. -/
def specInv6 (n m : Nat) (sched : List Nat) : Prop :=
  ∀ i < n, m / n ≤ countIn sched i 0 m ∧ countIn sched i 0 m ≤ (m + n - 1) / n

/-- Modelled from the spec: invariant 7 of section 3 — "If m ≥ 3n, every
doctor appears at least once in every contiguous window of 3n days". -/
def specInv7 (n m : Nat) (sched : List Nat) : Prop :=
  3 * n ≤ m → ∀ i < n, ∀ d < m, d + 3 * n ≤ m → 1 ≤ countIn sched i d (3 * n)

/-- The number of weekend blocks whose two days are both assigned doctor `i`. -/
def weekendCountSched (startIdx m : Nat) (sched : List Nat) (i : Nat) : Nat :=
  ((weekendFridaysList startIdx m).filter
    (fun fri => sched[fri]? == some i && sched[fri + 1]? == some i)).length

/-- Modelled from the spec: invariant 8 of section 3 — "If W > 0, each
per-doctor total WeekendBlock count lies in [floor(W/n), ceil(W/n)]". -/
def specInv8 (n startIdx m : Nat) (sched : List Nat) : Prop :=
  0 < (weekendFridaysList startIdx m).length → ∀ i < n,
    (weekendFridaysList startIdx m).length / n ≤ weekendCountSched startIdx m sched i ∧
    weekendCountSched startIdx m sched i ≤
      ((weekendFridaysList startIdx m).length + n - 1) / n

/-- Modelled from the spec: the Schedule Validator of section 4.4 accepts a
candidate schedule exactly when invariants 2-8 of section 3 all hold. -/
def specAll (n m startIdx : Nat) (pairs : List (Nat × Nat)) (sched : List Nat) : Prop :=
  specInv2 pairs sched ∧ specInv3 n m sched ∧ specInv4 startIdx m sched ∧
  specInv5 n startIdx m sched ∧ specInv6 n m sched ∧ specInv7 n m sched ∧
  specInv8 n startIdx m sched

/-- The forbidden pairs of concrete scenario 1 (`examples[0]` of `cp_sat.py`),
in `(doctor, day)` order. -/
def c1Pairs : List (Nat × Nat) :=
  [(0, 5), (0, 12), (0, 19), (0, 26),
   (2, 2), (2, 9), (2, 16), (2, 23), (2, 4), (2, 11), (2, 18), (2, 25),
   (1, 0), (1, 1), (1, 28), (1, 29)]

/-- The `valid_schedule` sequence of `examples[0]` in `cp_sat.py`. -/
def c1Valid : List Nat :=
  [0, 0, 1, 1, 0, 2, 0, 1, 2, 0, 0, 0, 2, 2, 1,
   1, 1, 2, 0, 2, 1, 0, 2, 1, 2, 1, 1, 0, 2, 2]

/-- The `invalid_schedule` sequence of `examples[0]` in `cp_sat.py`. -/
def c1Invalid : List Nat :=
  [0, 0, 1, 1, 0, 2, 0, 0, 2, 0, 0, 0, 2, 2, 1,
   1, 1, 2, 0, 2, 0, 1, 2, 1, 2, 1, 1, 1, 2, 2]

instance (pairs : List (Nat × Nat)) (sched : List Nat) : Decidable (specInv2 pairs sched) := by
  unfold specInv2; exact inferInstance

instance (n m : Nat) (sched : List Nat) : Decidable (specInv3 n m sched) := by
  unfold specInv3; exact inferInstance

instance (startIdx m : Nat) (sched : List Nat) : Decidable (specInv4 startIdx m sched) := by
  unfold specInv4; exact inferInstance

instance (n startIdx m : Nat) (sched : List Nat) : Decidable (specInv5 n startIdx m sched) := by
  unfold specInv5; exact inferInstance

instance (n m : Nat) (sched : List Nat) : Decidable (specInv6 n m sched) := by
  unfold specInv6; exact inferInstance

instance (n m : Nat) (sched : List Nat) : Decidable (specInv7 n m sched) := by
  unfold specInv7; exact inferInstance

instance (n startIdx m : Nat) (sched : List Nat) : Decidable (specInv8 n startIdx m sched) := by
  unfold specInv8; exact inferInstance

instance (n m startIdx : Nat) (pairs : List (Nat × Nat)) (sched : List Nat) :
    Decidable (specAll n m startIdx pairs sched) := by
  unfold specAll; exact inferInstance

instance (M : BuiltModel) (day : Nat → Nat) : Decidable (domainOk M day) := by
  unfold domainOk; exact inferInstance

instance (M : BuiltModel) (day : Nat → Nat) (bval : Nat → Nat → Bool) :
    Decidable (bLinkOk M day bval) := by
  unfold bLinkOk; exact inferInstance

instance (M : BuiltModel) (day : Nat → Nat) (wval : Nat → Nat → Bool) :
    Decidable (wLinkOk M day wval) := by
  unfold wLinkOk; exact inferInstance

instance (M : BuiltModel) (bval : Nat → Nat → Bool) : Decidable (noLongRunOk M bval) := by
  unfold noLongRunOk; exact inferInstance

instance (M : BuiltModel) (day : Nat → Nat) : Decidable (pairingOk M day) := by
  unfold pairingOk; exact inferInstance

instance (M : BuiltModel) (wval : Nat → Nat → Bool) (wu : Nat → Bool) :
    Decidable (wuMaxOk M wval wu) := by
  unfold wuMaxOk; exact inferInstance

instance (M : BuiltModel) (wu : Nat → Bool) : Decidable (spreadOk M wu) := by
  unfold spreadOk; exact inferInstance

instance (M : BuiltModel) (day : Nat → Nat) : Decidable (disallowedOk M day) := by
  unfold disallowedOk; exact inferInstance

instance (M : BuiltModel) (bval : Nat → Nat → Bool) : Decidable (totalsOk M bval) := by
  unfold totalsOk; exact inferInstance

instance (M : BuiltModel) (bval : Nat → Nat → Bool) : Decidable (coverageOk M bval) := by
  unfold coverageOk; exact inferInstance

instance (M : BuiltModel) (wval : Nat → Nat → Bool) : Decidable (weekendFairOk M wval) := by
  unfold weekendFairOk; exact inferInstance

instance (M : BuiltModel) (day : Nat → Nat) (bval wval : Nat → Nat → Bool) (wu : Nat → Bool) :
    Decidable (SatisfiesModel M day bval wval wu) := by
  unfold SatisfiesModel; exact inferInstance

theorem getD_mem_of_lt (l : List Nat) : ∀ k, k < l.length → l.getD k 0 ∈ l := by
  induction l with
  | nil => intro k hk; simp at hk
  | cons a t ih =>
    intro k hk
    cases k with
    | zero => rw [List.getD_cons_zero]; exact List.mem_cons_self a t
    | succ k2 =>
      rw [List.getD_cons_succ]
      refine List.mem_cons_of_mem a (ih k2 ?_)
      rw [List.length_cons] at hk
      omega

theorem mem_exists_getD (l : List Nat) (x : Nat) (hx : x ∈ l) :
    ∃ k, k < l.length ∧ l.getD k 0 = x := by
  induction l with
  | nil => simp at hx
  | cons a t ih =>
    rw [List.mem_cons] at hx
    cases hx with
    | inl h => exact ⟨0, by simp, by rw [List.getD_cons_zero]; exact h.symm⟩
    | inr h =>
      obtain ⟨k, hk, hgd⟩ := ih h
      exact ⟨k + 1, by rw [List.length_cons]; omega, by rw [List.getD_cons_succ]; exact hgd⟩

theorem foldr_or_map_any (f : Nat → Bool) (l : List Nat) :
    (l.map f).foldr (fun a b => a || b) false = l.any f := by
  induction l with
  | nil => rfl
  | cons a t ih => simp [List.map_cons, List.foldr_cons, List.any_cons, ih]

theorem length_filter_eq_sum_toNat (p : Nat → Bool) (l : List Nat) :
    (l.filter p).length = (l.map (fun x => (p x).toNat)).sum := by
  induction l with
  | nil => rfl
  | cons a t ih =>
    cases h : p a with
    | true => simp [List.filter_cons, h, ih, Nat.add_comm]
    | false => simp [List.filter_cons, h, ih]

theorem map_eq_of_mem_eq (f g : Nat → Nat) (l : List Nat) (h : ∀ x ∈ l, f x = g x) :
    l.map f = l.map g := by
  induction l with
  | nil => rfl
  | cons a t ih =>
    rw [List.map_cons, List.map_cons, h a (List.mem_cons_self a t),
      ih (fun x hx => h x (List.mem_cons_of_mem a hx))]

theorem buildDisallowed_ok_of_inRange (m : Nat) (pairs : List (Int × Int))
    (h : ∀ p ∈ pairs, -(m : Int) ≤ p.2 ∧ p.2 < (m : Int)) :
    ∃ l, buildDisallowed m pairs = Except.ok l := by
  induction pairs with
  | nil => exact ⟨[], rfl⟩
  | cons p rest ih =>
    obtain ⟨hp1, hp2⟩ := h p (List.mem_cons_self p rest)
    obtain ⟨l, hl⟩ := ih (fun q hq => h q (List.mem_cons_of_mem p hq))
    have hnorm : ∃ j, normDayIndex m p.2 = some j := by
      unfold normDayIndex
      by_cases hneg : p.2 < 0
      · rw [if_neg (fun hc => absurd hc.1 (by omega)), if_pos ⟨hp1, hneg⟩]
        exact ⟨_, rfl⟩
      · rw [if_pos ⟨by omega, hp2⟩]
        exact ⟨_, rfl⟩
    obtain ⟨j, hj⟩ := hnorm
    refine ⟨(j, p.1) :: l, ?_⟩
    simp only [buildDisallowed, hj, hl]

/-- Claim C1 (counterexample): with n = 3, m = 30, start day Friday (weekday
index 4) and the scenario-1 forbidden pairs, the sequence the repository labels
`valid_schedule` does NOT satisfy all of invariants 2-8: it violates
invariant 4 (weekend pairing), assigning doctors 1 and 2 to the Friday-Saturday
block at days 7 and 8. -/
theorem c1_counterexample : ¬ specAll 3 30 4 c1Pairs c1Valid := by decide

/-- Claim C1 (amended): the weekday index of Friday is 4; the `valid_schedule`
sequence satisfies invariants 2, 3, 5, 6, 7 and 8 but violates invariant 4
(weekend pairing), and the `invalid_schedule` sequence violates at least one of
invariants 2-8 (in fact also invariant 4), so a spec-faithful Validator rejects
both sequences. -/
theorem c1_amended :
    weekdayIndex fridayName = some 4 ∧
    specInv2 c1Pairs c1Valid ∧ specInv3 3 30 c1Valid ∧ ¬ specInv4 4 30 c1Valid ∧
    specInv5 3 4 30 c1Valid ∧ specInv6 3 30 c1Valid ∧ specInv7 3 30 c1Valid ∧
    specInv8 3 4 30 c1Valid ∧ ¬ specAll 3 30 4 c1Pairs c1Invalid := by decide

/-- Claim C2 (counterexample): a call with a forbidden pair whose doctor index
5 lies outside [0, n) = [0, 2) completes model construction with no error of
any kind — the constraint `day_vars[0] != 5` is posted silently — so no
`InvalidParameters` failure is detected or surfaced before the search starts. -/
theorem c2_counterexample :
    cpSatBuild 2 3 fridayName [((5 : Int), (0 : Int))] =
      Except.ok ⟨2, 3, 4, [0], [(0, 5)]⟩ := rfl

/-- Claim C2 (amended): the scheduling core performs no `InvalidParameters`
validation: for every n ≥ 1, every m, and every forbidden-pair list whose day
components lie in [-m, m), model construction succeeds with no error at all,
with no constraint whatsoever on the doctor components (they may lie far
outside [0, n)). -/
theorem c2_no_validation (n m : Nat) (pairs : List (Int × Int)) (hn : n ≠ 0)
    (hp : ∀ p ∈ pairs, -(m : Int) ≤ p.2 ∧ p.2 < (m : Int)) :
    ∃ M, cpSatBuild n m fridayName pairs = Except.ok M := by
  obtain ⟨l, hl⟩ := buildDisallowed_ok_of_inRange m pairs hp
  have hwk : weekdayIndex fridayName = some 4 := by decide
  refine ⟨⟨n, m, 4, weekendFridaysList 4 m, l⟩, ?_⟩
  unfold cpSatBuild
  simp only [hwk, hl]
  rw [if_neg hn]

/-- Claim C2 (witness): the amended theorem applied at n = 2, m = 3 with the
out-of-range doctor index 5. -/
theorem c2_no_validation_witness :
    ∃ M, cpSatBuild 2 3 fridayName [((5 : Int), (0 : Int))] = Except.ok M :=
  c2_no_validation 2 3 [((5 : Int), (0 : Int))] (by decide) (by decide)

/-- Claim C3 (counterexample): the failure value surfaced when the solver
proves infeasibility is the very same value surfaced when the time budget
elapses with status UNKNOWN — both raise the single
`RuntimeError("No valid schedule found.")` of line 102 — so the caller cannot
distinguish the two outcomes. -/
theorem c3_counterexample :
    surfaceResult CpSolverStatus.infeasible [] =
      surfaceResult CpSolverStatus.unknown [] := rfl

/-- Claim C3 (amended): every solver status other than OPTIMAL and FEASIBLE —
INFEASIBLE, the timed-out UNKNOWN, and MODEL_INVALID alike — surfaces the one
identical `RuntimeError`; the code returns no value distinguishing Infeasible
from TimedOut. -/
theorem c3_uniform_failure (s : CpSolverStatus) (values : List Nat)
    (h1 : ¬ s = CpSolverStatus.optimal) (h2 : ¬ s = CpSolverStatus.feasible) :
    surfaceResult s values = Except.error ScheduleError.runtimeError := by
  unfold surfaceResult
  rw [if_neg (fun hor => hor.elim h1 h2)]

/-- Claim C3 (witness): the amended theorem applied at the INFEASIBLE status. -/
theorem c3_uniform_failure_witness :
    surfaceResult CpSolverStatus.infeasible [] = Except.error ScheduleError.runtimeError :=
  c3_uniform_failure CpSolverStatus.infeasible [] (by decide) (by decide)

/-- Claim C4 (code bug): the UI conversion of `app.py` line 135 emits, for
doctor index i and selected 1-based day number k, the pair (k - 1, i) — in
(day_index, doctor_index) order — and not the pair (i, k - 1) that
`cp_sat_generate_schedule` unpacks as `(doctor, day)`.  With doctor 2 and
off-day number 6 the core therefore posts `day_vars[2] != 5` instead of
`day_vars[5] != 2`, and doctor 2 can still be scheduled on day 5. -/
theorem c4_pair_order_bug (i k : Nat) :
    uiDisallowedPairs [(i, [k])] = [(k - 1, i)] := by
  simp [uiDisallowedPairs]

/-- Claim C6: in every valuation satisfying the constructed constraint model,
each assignment indicator `b[i,d]` is true exactly when day d is assigned
doctor i, and each weekend indicator `w[i,k]` is true exactly when doctor i
covers both days of weekend block k — the backward direction of the `w`
biconditional following because a valuation with the Friday equal to i is
forced to have `w[i,k]` true by the negative link clause, and the
pairing constraint makes the Friday and Saturday values agree. -/
theorem c6_indicator_biconditionals (n m : Nat) (sd : String)
    (pairs : List (Int × Int)) (M : BuiltModel) (day : Nat → Nat)
    (bval wval : Nat → Nat → Bool) (wu : Nat → Bool)
    (hbuild : cpSatBuild n m sd pairs = Except.ok M)
    (hsat : SatisfiesModel M day bval wval wu) :
    (∀ i < M.n, ∀ d < M.m, (bval i d = true ↔ day d = i)) ∧
    (∀ i < M.n, ∀ k < M.weekendFridays.length,
      (wval i k = true ↔ day (M.weekendFridays.getD k 0) = i ∧
        day (M.weekendFridays.getD k 0 + 1) = i)) := by
  obtain ⟨-, hb, hw, -, -, -, -, -, -, -, -⟩ := hsat
  constructor
  · intro i hi d hd
    constructor
    · exact (hb i hi d hd).1
    · intro hday
      cases hbv : bval i d with
      | true => rfl
      | false => exact absurd hday ((hb i hi d hd).2 hbv)
  · intro i hi k hk
    constructor
    · exact (hw i hi k hk).1
    · intro hcover
      cases hwv : wval i k with
      | true => rfl
      | false => exact absurd hcover.1 ((hw i hi k hk).2 hwv)

/-- Claim C6 (witness): the biconditionals instantiated on the model built for
n = 1, m = 1, start Monday with the all-true / all-false indicator valuation
of its unique solution. -/
theorem c6_indicator_biconditionals_witness :
    (∀ i < (1 : Nat), ∀ d < (1 : Nat),
      ((fun (_ _ : Nat) => true) i d = true ↔ (fun (_ : Nat) => 0) d = i)) ∧
    (∀ i < (1 : Nat), ∀ k < ([] : List Nat).length,
      ((fun (_ _ : Nat) => false) i k = true ↔
        (fun (_ : Nat) => 0) (([] : List Nat).getD k 0) = i ∧
        (fun (_ : Nat) => 0) (([] : List Nat).getD k 0 + 1) = i)) :=
  c6_indicator_biconditionals 1 1 mondayName [] ⟨1, 1, 0, [], []⟩
    (fun _ => 0) (fun _ _ => true) (fun _ _ => false) (fun _ => false)
    rfl (by decide)

/-- Claim C5: for every call on which the core returns an assignment — i.e.
model construction succeeded and the returned day valuation satisfies every
posted constraint together with its indicator variables — the number of
distinct doctors covering at least one Friday-Saturday weekend block equals
exactly min(n, W). -/
theorem c5_weekend_spread_equality (n m : Nat) (sd : String)
    (pairs : List (Int × Int)) (M : BuiltModel) (day : Nat → Nat)
    (bval wval : Nat → Nat → Bool) (wu : Nat → Bool)
    (hbuild : cpSatBuild n m sd pairs = Except.ok M)
    (hsat : SatisfiesModel M day bval wval wu) :
    distinctWeekendDoctors M.n M.weekendFridays day =
      min M.n M.weekendFridays.length := by
  obtain ⟨-, -, hw, -, -, hwu, hspread, -, -, -, -⟩ := hsat
  have key : ∀ i ∈ List.range M.n,
      (M.weekendFridays.any (fun fri => day fri == i && day (fri + 1) == i)) = wu i := by
    intro i hi
    rw [List.mem_range] at hi
    rw [hwu i hi, foldr_or_map_any]
    cases hany : (List.range M.weekendFridays.length).any (fun k => wval i k) with
    | true =>
      rw [List.any_eq_true] at hany
      obtain ⟨k, hk, hvk⟩ := hany
      rw [List.mem_range] at hk
      obtain ⟨h1, h2⟩ := (hw i hi k hk).1 hvk
      rw [List.any_eq_true]
      refine ⟨M.weekendFridays.getD k 0, getD_mem_of_lt _ k hk, ?_⟩
      simp only [Bool.and_eq_true, beq_iff_eq]
      exact ⟨h1, h2⟩
    | false =>
      have hnot : ¬ ((List.range M.weekendFridays.length).any
          (fun k => wval i k) = true) := by
        rw [hany]; simp
      have hall : ∀ k, k < M.weekendFridays.length → wval i k = false := by
        intro k hk
        cases hvk : wval i k with
        | false => rfl
        | true => exact absurd (List.any_eq_true.mpr
            ⟨k, List.mem_range.mpr hk, hvk⟩) hnot
      cases hany2 : M.weekendFridays.any
          (fun fri => day fri == i && day (fri + 1) == i) with
      | false => rfl
      | true =>
        exfalso
        rw [List.any_eq_true] at hany2
        obtain ⟨fri, hfri, hp⟩ := hany2
        rw [Bool.and_eq_true, beq_iff_eq, beq_iff_eq] at hp
        obtain ⟨k, hk, hgd⟩ := mem_exists_getD _ _ hfri
        exact (hw i hi k hk).2 (hall k hk) (by rw [hgd]; exact hp.1)
  unfold distinctWeekendDoctors
  rw [length_filter_eq_sum_toNat]
  rw [map_eq_of_mem_eq _ _ _ (fun x hx => by rw [key x hx])]
  exact hspread

/-- Claim C5 (witness): the equality instantiated on the model built for
n = 1, m = 1, start Monday (a month with W = 0 weekend blocks), whose unique
returned assignment has 0 = min(1, 0) distinct weekend doctors. -/
theorem c5_weekend_spread_equality_witness :
    distinctWeekendDoctors (1 : Nat) ([] : List Nat) (fun _ => 0) =
      min (1 : Nat) ([] : List Nat).length :=
  c5_weekend_spread_equality 1 1 mondayName [] ⟨1, 1, 0, [], []⟩
    (fun _ => 0) (fun _ _ => true) (fun _ _ => false) (fun _ => false)
    rfl (by decide)

/-- Claim C7: the no-long-run constraint is imposed exactly at the window
starts d with d + 3 < m (the set `[0, m-3)`, i.e. every 4-day window lying
inside the month), for m < 4 no window start exists at all, and in every
valuation satisfying the model each doctor covers at most 3 of the 4 days of
every such window. -/
theorem c7_long_run_windows :
    (∀ m d : Nat, d ∈ longRunWindows m ↔ d + 3 < m) ∧
    (∀ m : Nat, m < 4 → longRunWindows m = []) ∧
    (∀ (M : BuiltModel) (day : Nat → Nat) (bval wval : Nat → Nat → Bool)
      (wu : Nat → Bool), SatisfiesModel M day bval wval wu →
      ∀ i < M.n, ∀ d, d + 3 < M.m → windowSum4 bval i d ≤ 3) := by
  refine ⟨?_, ?_, ?_⟩
  · intro m d
    unfold longRunWindows
    rw [List.mem_range]
    omega
  · intro m hm
    unfold longRunWindows
    have h0 : m - 3 = 0 := by omega
    rw [h0]
    rfl
  · intro M day bval wval wu hsat i hi d hd
    obtain ⟨-, -, -, hrun, -, -, -, -, -, -, -⟩ := hsat
    refine hrun i hi d ?_
    unfold longRunWindows
    rw [List.mem_range]
    omega

/-- Claim C7 (witness): the window-start characterization at m = 4 and m = 3,
and the window bound applied to a satisfying valuation of the model built for
n = 2, m = 4, start Monday with the alternating assignment. -/
theorem c7_long_run_windows_witness :
    ((0 : Nat) ∈ longRunWindows 4 ↔ 0 + 3 < 4) ∧
    longRunWindows 3 = [] ∧
    windowSum4 (fun i d => d % 2 == i) 0 0 ≤ 3 :=
  ⟨c7_long_run_windows.1 4 0,
   c7_long_run_windows.2.1 3 (by decide),
   c7_long_run_windows.2.2 ⟨2, 4, 0, [], []⟩ (fun d => d % 2)
     (fun i d => d % 2 == i) (fun _ _ => false) (fun _ => false)
     (by decide) 0 (by decide) 0 (by decide)⟩

/-- Claim C9: a forbidden pair (i, d) with 0 ≤ i < n and -m ≤ d < 0 raises no
error during model construction: negative Python indexing of `day_vars`
resolves it to day m + d, so the posted constraint — and hence the whole
construction — is identical to the one for the pair (i, m + d). -/
theorem c9_negative_day_index (n m : Nat) (i d : Int) (rest : List (Int × Int))
    (hi0 : 0 ≤ i) (hin : i < (n : Int)) (hd0 : -(m : Int) ≤ d) (hd : d < 0) :
    normDayIndex m d = some ((m : Int) + d).toNat ∧
    buildDisallowed m ((i, d) :: rest) =
      buildDisallowed m ((i, (m : Int) + d) :: rest) ∧
    buildDisallowed m [(i, d)] = Except.ok [(((m : Int) + d).toNat, i)] := by
  have h1 : normDayIndex m d = some ((m : Int) + d).toNat := by
    unfold normDayIndex
    rw [if_neg (fun hc => absurd hc.1 (by omega)), if_pos ⟨hd0, hd⟩]
  have h2 : normDayIndex m ((m : Int) + d) = some ((m : Int) + d).toNat := by
    unfold normDayIndex
    rw [if_pos ⟨by omega, by omega⟩]
  refine ⟨h1, ?_, ?_⟩
  · simp only [buildDisallowed, h1, h2]
  · simp only [buildDisallowed, h1]

/-- Claim C9 (witness): the pair (0, -2) with n = 2, m = 5 resolves to day 3
and builds the same constraint list as the pair (0, 3). -/
theorem c9_negative_day_index_witness :
    normDayIndex 5 (-2) = some ((5 : Int) + (-2)).toNat ∧
    buildDisallowed 5 [((0 : Int), (-2 : Int))] =
      Except.ok [(((5 : Int) + (-2)).toNat, 0)] := by
  have h := c9_negative_day_index 2 5 0 (-2) []
    (by decide) (by decide) (by decide) (by decide)
  exact ⟨h.1, h.2.2⟩
